import Mathlib

/-!
Shallow embedding of the `pyscpibase` instrument-control layer
(`src/instrument.py`, `src/rto6.py`).

The transport primitives (`write`, `query`) are modelled as a trace of
operations (`Op`) issued against a stub whose query responses are a pure
function `String → String`.  Python exceptions are modelled with `Except`
over `PyError`; a step that mutates the instance and may raise returns the
operations that were issued, the instance state as left behind, and the
outcome.  Python instance dictionaries (`vars(instance)`) are modelled as
insertion-ordered association lists.
-/

namespace PySCPI

/-- A transport operation issued against the VISA resource: either
`resource.write(msg)` or `resource.query(msg)`. -/
inductive Op where
  | write (msg : String)
  | query (msg : String)
deriving DecidableEq, Repr

/-- Python exceptions relevant to this layer: `AttributeError` (with its
message), `TypeError` (duplicate keyword argument), a formatting error
(`KeyError` / `ValueError` from `str.format`), and a generic exception used
for transport failures. -/
inductive PyError where
  | attributeError (msg : String)
  | typeError
  | formatError
  | exc (msg : String)
deriving DecidableEq, Repr

/-- Log / lifecycle events produced by `Instrument.__init__` and
`Instrument.close` (only the error-level logging and the close attempts are
relevant to the spec; debug logs are elided). -/
inductive Ev where
  | attemptCloseResource
  | attemptCloseRm
  | logError (msg : String)
deriving DecidableEq, Repr

/-- `d[k] = v` on a Python dict modelled as an association list: updates the
value in place if the key exists, appends otherwise (insertion order). -/
def dictSet : List (String × String) → String → String → List (String × String)
  | [], k, v => [(k, v)]
  | (k', v') :: rest, k, v =>
      if k' = k then (k, v) :: rest else (k', v') :: dictSet rest k v

/-- Dict lookup on the association-list model of a Python dict. -/
def dictGet : List (String × String) → String → Option String
  | [], _ => none
  | (k', v') :: rest, k => if k' = k then some v' else dictGet rest k

/-- Scanner state for the model of Python `str.format`: literal text, just
saw an opening brace, just saw a closing brace, or inside a replacement
field collecting the field name in reverse. -/
inductive FmtMode where
  | lit
  | afterOpen
  | afterClose
  | field (accRev : List Char)

/-- Core of the model of Python `str.format(**mapping)`.  `\x7b\x7b` and
`\x7d\x7d` are literal-brace escapes; a lone closing brace, an unterminated
field, a nested opening brace inside a field name, and a field name missing
from the mapping are all errors (Python raises `ValueError`/`KeyError`/
`IndexError`), modelled as `none`. -/
def pyFmtGo (m : List (String × String)) :
    List Char → FmtMode → Option (List Char)
  | [], .lit => some []
  | [], .afterOpen => none
  | [], .afterClose => none
  | [], .field _ => none
  | c :: rest, .lit =>
      if c = '{' then pyFmtGo m rest .afterOpen
      else if c = '}' then pyFmtGo m rest .afterClose
      else (pyFmtGo m rest .lit).map (fun t => c :: t)
  | c :: rest, .afterOpen =>
      if c = '{' then (pyFmtGo m rest .lit).map (fun t => '{' :: t)
      else if c = '}' then none
      else pyFmtGo m rest (.field [c])
  | c :: rest, .afterClose =>
      if c = '}' then (pyFmtGo m rest .lit).map (fun t => '}' :: t)
      else none
  | c :: rest, .field acc =>
      if c = '}' then
        match dictGet m (String.mk acc.reverse) with
        | some v => (pyFmtGo m rest .lit).map (fun t => v.data ++ t)
        | none => none
      else if c = '{' then none
      else pyFmtGo m rest (.field (c :: acc))

/-- Model of Python `template.format(**mapping)` with named placeholders
(this is how `SCPIProperty.__get__`/`__set__` render commands from
`vars(instance)`). -/
def pyFormat (template : String) (m : List (String × String)) : Option String :=
  (pyFmtGo m template.data .lit).map String.mk

/-- A string that contains no brace character (so `str.format` treats it as
pure literal text). -/
def braceFree (s : String) : Prop := ∀ c ∈ s.data, c ≠ '{' ∧ c ≠ '}'

instance (s : String) : Decidable (braceFree s) := by
  unfold braceFree; infer_instance

/-- Model of Python `str.replace(pat, rep)` for a non-empty pattern:
replaces every (left-to-right, non-overlapping) occurrence of `pat` by
`rep`.  The counter skips the remaining characters of a matched
occurrence. -/
def pyReplaceGo (pat rep : List Char) : List Char → Nat → List Char
  | [], _ => []
  | _ :: rest, Nat.succ k => pyReplaceGo pat rep rest k
  | c :: rest, 0 =>
      if pat ≠ [] ∧ pat.isPrefixOf (c :: rest) then
        rep ++ pyReplaceGo pat rep rest (pat.length - 1)
      else
        c :: pyReplaceGo pat rep rest 0

/-- Model of Python `str.replace(pat, rep)` (non-empty `pat`). -/
def pyReplace (pat rep l : List Char) : List Char :=
  pyReplaceGo pat rep l 0

/-- `get_cmd.replace("?", "")` from `SCPIProperty.__init__`. -/
def stripQueryMarker (s : String) : String :=
  String.mk (pyReplace ['?'] [] s.data)

/-- The state of a Python object as seen by this layer: its instance
dictionary `vars(instance)` (attribute values in string form), the stub
transport's query-response function, and the set of attribute names the
underlying VISA resource exposes (reachable through
`Instrument.__getattr__`). -/
structure PyObj where
  attrs : List (String × String)
  resp : String → String
  resourceAttrs : List String

/-- `SCPIProperty`: descriptor for SCPI properties, with the query command
template, the write command template and the typecast applied to query
responses. -/
structure SCPIProperty (α : Type) where
  get_cmd : String
  set_cmd : String
  typecast : String → α

/-- `SCPIProperty.__init__`: stores `get_cmd`, and sets
`set_cmd = set_cmd or get_cmd.replace("?", "")` — Python's `or` falls back
to the derived command when the explicit one is `None` (here `none`) or the
empty string (falsy). -/
def SCPIProperty.make (get_cmd : String) (set_cmd : Option String)
    (typecast : String → α) : SCPIProperty α :=
  { get_cmd := get_cmd
    set_cmd :=
      match set_cmd with
      | some s => if s = "" then stripQueryMarker get_cmd else s
      | none => stripQueryMarker get_cmd
    typecast := typecast }

/-- `SCPIProperty.__get__` (instance case): render
`get_cmd.format(**vars(instance))`, send it through `instance.query`, and
apply the typecast to the response.  A formatting failure raises. -/
def SCPIProperty.get (p : SCPIProperty α) (o : PyObj) :
    List Op × Except PyError α :=
  match pyFormat p.get_cmd o.attrs with
  | none => ([], .error .formatError)
  | some cmd => ([Op.query cmd], .ok (p.typecast (o.resp cmd)))

/-- `SCPIProperty.__set__`: render `set_cmd.format(**vars(instance))` and
issue `instance.write(f"{set_cmd} {value}")`.  `value` is the string form
(`str(value)`) of the assigned value; no validation against `typecast` is
performed. -/
def SCPIProperty.set (p : SCPIProperty α) (o : PyObj) (value : String) :
    List Op × Except PyError Unit :=
  match pyFormat p.set_cmd o.attrs with
  | none => ([], .error .formatError)
  | some cmd => ([Op.write (cmd ++ " " ++ value)], .ok ())

/-- Class-level data of an `Instrument`/`SubSystem` subclass: its name, its
declared `SCPIProperty` descriptors (class attributes, in declaration order)
and its plain methods. -/
structure InstClass where
  name : String
  descs : List (String × SCPIProperty String)
  methods : List String

/-- Look up a declared descriptor on the class (data descriptors are found
before the instance dictionary in Python attribute resolution). -/
def findDesc (cls : InstClass) (k : String) : Option (SCPIProperty String) :=
  (cls.descs.find? (fun kv => kv.1 == k)).map (fun kv => kv.2)

/-- `hasattr(self, k)` on an `Instrument`: a declared descriptor is found
first and its `__get__` runs (issuing a query; a formatting error
propagates, since `hasattr` only swallows `AttributeError`); otherwise the
instance dictionary, then plain class attributes (methods), then
`Instrument.__getattr__`, which delegates to the attributes of the
underlying VISA resource. -/
def hasattrI (cls : InstClass) (o : PyObj) (k : String) :
    List Op × Except PyError Bool :=
  match findDesc cls k with
  | some p =>
      match p.get o with
      | (ops, .ok _) => (ops, .ok true)
      | (ops, .error e) => (ops, .error e)
  | none =>
      if (dictGet o.attrs k).isSome then ([], .ok true)
      else if cls.methods.contains k then ([], .ok true)
      else if o.resourceAttrs.contains k then ([], .ok true)
      else ([], .ok false)

/-- `setattr(self, k, v)`: a declared data descriptor's `__set__` runs
(issuing the write, leaving the instance dictionary untouched); otherwise
the value lands in the instance dictionary as a plain attribute.  `v` is
`str(value)`. -/
def setattrI (cls : InstClass) (o : PyObj) (k v : String) :
    List Op × Except PyError PyObj :=
  match findDesc cls k with
  | some p =>
      match p.set o v with
      | (ops, .ok _) => (ops, .ok o)
      | (ops, .error e) => (ops, .error e)
  | none => ([], .ok { o with attrs := dictSet o.attrs k v })

/-- `Instrument.setup(**kwargs)`: iterate the keywords in order; for each,
`hasattr` then `setattr` if present, else raise
`AttributeError(f"\x7bkey\x7d is not a valid attribute of \x7bcls\x7d")`.
The result carries the operations issued so far, the instance state left
behind, and the outcome (earlier assignments are not undone on error). -/
def instrumentSetup (cls : InstClass) :
    PyObj → List (String × String) → List Op × PyObj × Except PyError Unit
  | o, [] => ([], o, .ok ())
  | o, (k, v) :: rest =>
      match hasattrI cls o k with
      | (ops1, .error e) => (ops1, o, .error e)
      | (ops1, .ok false) =>
          (ops1, o, .error (.attributeError
            (k ++ " is not a valid attribute of " ++ cls.name)))
      | (ops1, .ok true) =>
          match setattrI cls o k v with
          | (ops2, .error e) => (ops1 ++ ops2, o, .error e)
          | (ops2, .ok o2) =>
              match instrumentSetup cls o2 rest with
              | (ops3, o3, r) => (ops1 ++ ops2 ++ ops3, o3, r)

/-- `SubSystem.setup(**kwargs)`: `setattr` every keyword in order, with no
existence check. -/
def subsystemSetup (cls : InstClass) :
    PyObj → List (String × String) → List Op × PyObj × Except PyError Unit
  | o, [] => ([], o, .ok ())
  | o, (k, v) :: rest =>
      match setattrI cls o k v with
      | (ops, .error e) => (ops, o, .error e)
      | (ops, .ok o2) =>
          match subsystemSetup cls o2 rest with
          | (ops2, o3, r) => (ops ++ ops2, o3, r)

/-- The `Channel` subsystem class of the RTO6 definition file. -/
def channelClass : InstClass where
  name := "Channel"
  descs := [("status", SCPIProperty.make "CHAN{suffix}:STAT?" none id),
            ("coupling", SCPIProperty.make "CHAN{suffix}:COUP?" none id)]
  methods := ["setup"]

/-- `Channel.setup(**kwargs)`, which runs `super().setup(status='ON',
**kwargs)`.  When `kwargs` itself binds `status`, Python raises
`TypeError: setup() got multiple values for keyword argument 'status'`
before the call happens; otherwise the default `status='ON'` precedes the
caller's keywords in the forwarded keyword dict. -/
def channelSetup (o : PyObj) (kwargs : List (String × String)) :
    List Op × PyObj × Except PyError Unit :=
  if kwargs.any (fun kv => kv.1 == "status") then ([], o, .error .typeError)
  else subsystemSetup channelClass o (("status", "ON") :: kwargs)

/-- The base `Instrument` class: descriptors `identity` and `complete`,
plus its plain methods. -/
def instrumentClass : InstClass where
  name := "Instrument"
  descs := [("identity", SCPIProperty.make "*IDN?" none id),
            ("complete", SCPIProperty.make "*OPC?" none id)]
  methods := ["setup", "reset", "clear", "wait", "close"]

/-- A connected base-`Instrument` instance over a stub transport: the
instance dictionary holds `label`, `_rm` and `_resource` (as
`Instrument.__init__` leaves them), and the underlying resource exposes the
usual VISA attributes. -/
def baseObj : PyObj where
  attrs := [("label", "Instrument"), ("_rm", "<rm>"), ("_resource", "<res>")]
  resp := fun _ => "RESP"
  resourceAttrs := ["write", "query", "timeout"]

/-- Channel 1 of an RTO6 over a stub transport (`self.channel[0]`, built as
`Channel(self, 1)`): the instance dictionary holds the back-reference and
`suffix = 1`. -/
def chanObj1 : PyObj where
  attrs := [("instrument", "<RTO6>"), ("suffix", "1")]
  resp := fun _ => "RESP"
  resourceAttrs := []

/-- `Instrument.close()`: close the resource, then the resource manager,
each in its own try/except that logs and continues.  The outcomes of the
two underlying close calls are the parameters; the function is total — the
model of a method that never raises. -/
def instrumentClose (resClose rmClose : Except PyError Unit) : List Ev :=
  (Ev.attemptCloseResource ::
    (match resClose with
     | .ok _ => []
     | .error _ => [Ev.logError "Error closing resource"])) ++
  (Ev.attemptCloseRm ::
    (match rmClose with
     | .ok _ => []
     | .error _ => [Ev.logError "Error closing resource manager"]))

/-- Python `a or b` on an optional string (`None` and `""` are falsy). -/
def pyOrStr (a : Option String) (b : String) : String :=
  match a with
  | none => b
  | some s => if s = "" then b else s

/-- What `Instrument.__init__` leaves behind: the label, whether `_rm` and
`_resource` were bound, and the error-level log events. -/
structure InitState where
  label : String
  rm : Option Unit
  resource : Option Unit
  logs : List Ev

/-- `Instrument.__init__`: set the label, then open the resource manager
and the resource, each in its own try/except that logs the failure and
continues.  When opening the resource manager failed, `self._rm` is unbound
and the resource-opening attempt fails too (the lookup raises inside the
second `try`, which is caught the same way).  Total: construction never
propagates the failure. -/
def instrumentInit (clsName : String) (label : Option String)
    (rmOpen resOpen : Except PyError Unit) : InitState :=
  let lbl := pyOrStr label clsName
  match rmOpen with
  | .error _ =>
      { label := lbl, rm := none, resource := none,
        logs := [Ev.logError "Failed to open resource manager",
                 Ev.logError "Failed to open resource"] }
  | .ok _ =>
      match resOpen with
      | .error _ =>
          { label := lbl, rm := some (), resource := none,
            logs := [Ev.logError "Failed to open resource"] }
      | .ok _ =>
          { label := lbl, rm := some (), resource := some (), logs := [] }

/-- Decimal-literal coercion (what Python `float` does on inputs like
`"3.14"`), used as a sample numeric `value_type` when exercising read
coercion. -/
def parseDecimal (s : String) : ℚ :=
  let digitsVal : List Char → Nat :=
    fun l => l.foldl (fun n c => 10 * n + (c.toNat - '0'.toNat)) 0
  let intPart := s.data.takeWhile (fun c => c ≠ '.')
  let fracPart := (s.data.dropWhile (fun c => c ≠ '.')).drop 1
  ((digitsVal intPart : Nat) : ℚ)
    + ((digitsVal fracPart : Nat) : ℚ) / (10 : ℚ) ^ fracPart.length

lemma pyFmtGo_lit_cons (m : List (String × String)) (c : Char) (rest : List Char)
    (h1 : c ≠ '{') (h2 : c ≠ '}') :
    pyFmtGo m (c :: rest) .lit = (pyFmtGo m rest .lit).map (fun t => c :: t) := by
  rw [pyFmtGo]
  simp [h1, h2]

lemma pyFmtGo_lit_append (m : List (String × String)) (pre : List Char)
    (h : ∀ c ∈ pre, c ≠ '{' ∧ c ≠ '}') (rest : List Char) :
    pyFmtGo m (pre ++ rest) .lit = (pyFmtGo m rest .lit).map (fun t => pre ++ t) := by
  induction pre with
  | nil => simp
  | cons c pre' ih =>
      have hc := h c (by simp)
      rw [List.cons_append, pyFmtGo_lit_cons m c _ hc.1 hc.2,
        ih (fun c' hc' => h c' (by simp [hc']))]
      cases pyFmtGo m rest .lit <;> simp

lemma pyFmtGo_fieldName (m : List (String × String)) (nm : List Char)
    (h : ∀ c ∈ nm, c ≠ '{' ∧ c ≠ '}') (acc rest : List Char) :
    pyFmtGo m (nm ++ '}' :: rest) (.field acc) =
      match dictGet m (String.mk (acc.reverse ++ nm)) with
      | some v => (pyFmtGo m rest .lit).map (fun t => v.data ++ t)
      | none => none := by
  induction nm generalizing acc with
  | nil =>
      rw [List.nil_append, pyFmtGo]
      simp
  | cons c nm' ih =>
      have hc := h c (by simp)
      rw [List.cons_append, pyFmtGo]
      simp only [hc.1, hc.2, if_false]
      rw [ih (fun c' hc' => h c' (by simp [hc'])) (c :: acc)]
      simp

lemma pyFmtGo_enter (m : List (String × String)) (c : Char) (rest : List Char)
    (h1 : c ≠ '{') (h2 : c ≠ '}') :
    pyFmtGo m ('{' :: c :: rest) .lit = pyFmtGo m rest (.field [c]) := by
  rw [pyFmtGo, if_pos rfl, pyFmtGo]
  simp [h1, h2]

/-- Substitution correctness for the model of `str.format`: on a template
`pre{nm}post` whose literal parts contain no brace, rendering replaces the
named placeholder by the mapping's value for `nm` and leaves the literal
parts unchanged.  Every command template in this repository has this shape
(zero placeholders, or exactly one, named `suffix`). -/
theorem pyFormat_subst (m : List (String × String)) (pre nm post v : String)
    (hpre : braceFree pre) (hnm : braceFree nm) (hpost : braceFree post)
    (hne : nm ≠ "") (hv : dictGet m nm = some v) :
    pyFormat (pre ++ "\x7b" ++ nm ++ "\x7d" ++ post) m = some (pre ++ v ++ post) := by
  obtain ⟨c, nmtl, hd⟩ : ∃ c nmtl, nm.data = c :: nmtl := by
    cases hnd : nm.data with
    | nil =>
        exact absurd (show nm = "" from String.ext (by simp [hnd])) hne
    | cons c tl => exact ⟨c, tl, rfl⟩
  have hdata : (pre ++ "\x7b" ++ nm ++ "\x7d" ++ post).data
      = pre.data ++ ('{' :: (nm.data ++ ('}' :: post.data))) := by
    simp [String.data_append]
  unfold pyFormat
  rw [hdata, pyFmtGo_lit_append m pre.data hpre]
  have hc : c ≠ '{' ∧ c ≠ '}' := hnm c (by rw [hd]; simp)
  rw [hd, List.cons_append, pyFmtGo_enter m c _ hc.1 hc.2]
  have hnmtl : ∀ c' ∈ nmtl, c' ≠ '{' ∧ c' ≠ '}' := fun c' hc' =>
    hnm c' (by rw [hd]; simp [hc'])
  rw [pyFmtGo_fieldName m nmtl hnmtl [c]]
  have hname : String.mk ([c].reverse ++ nmtl) = nm := by
    apply String.ext
    simp [hd]
  rw [hname, hv]
  have hnilgo : pyFmtGo m [] .lit = some [] := by rw [pyFmtGo]
  have hpost' : pyFmtGo m post.data .lit = some post.data := by
    have := pyFmtGo_lit_append m post.data hpost []
    simpa [hnilgo] using this
  rw [hpost']
  simp only [Option.map_some']
  congr 1
  apply String.ext
  simp [String.data_append]

/-- `str.replace("?", "")` removes every occurrence of the query marker. -/
lemma pyReplace_qmark (l : List Char) :
    pyReplace ['?'] [] l = l.filter (fun c => c ≠ '?') := by
  unfold pyReplace
  induction l with
  | nil =>
      rw [pyReplaceGo]
      simp
  | cons c rest ih =>
      rw [pyReplaceGo]
      by_cases hc : c = '?'
      · subst hc
        simp [List.isPrefixOf, ih]
      · have hcond : ¬ ((['?'] : List Char) ≠ [] ∧ (['?'].isPrefixOf (c :: rest) = true)) := by
          simp [List.isPrefixOf]
          exact fun hh => hc hh.symm
        rw [if_neg hcond]
        simp [ih, hc]

lemma dictGet_dictSet_self (d : List (String × String)) (k v : String) :
    dictGet (dictSet d k v) k = some v := by
  induction d with
  | nil => simp [dictSet, dictGet]
  | cons kv rest ih =>
      obtain ⟨k', v'⟩ := kv
      by_cases h : k' = k
      · simp [dictSet, dictGet, h]
      · simp [dictSet, dictGet, h, ih]

/-- **C1**: reading a Command Descriptor renders the query template by
substituting the named placeholder with the correspondingly named attribute
value held by the accessing instance *at the time of access* (after
updating the attribute, a re-read renders with the new value), sends the
rendered command to the instance's `query` primitive, and returns
`value_type` applied to the string `query` returned. -/
theorem scpi_read_uses_live_attrs_and_coerces (α : Type) (tc : String → α)
    (pre nm post s1 s2 : String) (resp : String → String) (ra : List String)
    (d : List (String × String))
    (hpre : braceFree pre) (hnm : braceFree nm) (hpost : braceFree post)
    (hne : nm ≠ "") (h1 : dictGet d nm = some s1) :
    (SCPIProperty.make (pre ++ "\x7b" ++ nm ++ "\x7d" ++ post) none tc).get ⟨d, resp, ra⟩
      = ([Op.query (pre ++ s1 ++ post)],
         Except.ok (tc (resp (pre ++ s1 ++ post)))) ∧
    (SCPIProperty.make (pre ++ "\x7b" ++ nm ++ "\x7d" ++ post) none tc).get
        ⟨dictSet d nm s2, resp, ra⟩
      = ([Op.query (pre ++ s2 ++ post)],
         Except.ok (tc (resp (pre ++ s2 ++ post)))) := by
  constructor
  · have e1 := pyFormat_subst d pre nm post s1 hpre hnm hpost hne h1
    simp [SCPIProperty.get, SCPIProperty.make, e1]
  · have h2 := dictGet_dictSet_self d nm s2
    have e2 := pyFormat_subst (dictSet d nm s2) pre nm post s2 hpre hnm hpost hne h2
    simp [SCPIProperty.get, SCPIProperty.make, e2]

/-- Witness for C1 on the channel-status descriptor of channel 1 of an
RTO6, over a stub transport answering `"3.14"` and a numeric `value_type`:
the rendered query is `CHAN1:STAT?` (and `CHAN2:STAT?` after the suffix is
changed to 2), and the returned value is the number 3.14, not the
string. -/
theorem scpi_read_uses_live_attrs_and_coerces_witness :
    ((SCPIProperty.make ("CHAN" ++ "\x7b" ++ "suffix" ++ "\x7d" ++ ":STAT?") none
          parseDecimal).get
        ⟨[("instrument", "<RTO6>"), ("suffix", "1")], fun _ => "3.14", []⟩
      = ([Op.query ("CHAN" ++ "1" ++ ":STAT?")],
         Except.ok (parseDecimal ((fun _ => "3.14") ("CHAN" ++ "1" ++ ":STAT?")))) ∧
     (SCPIProperty.make ("CHAN" ++ "\x7b" ++ "suffix" ++ "\x7d" ++ ":STAT?") none
          parseDecimal).get
        ⟨dictSet [("instrument", "<RTO6>"), ("suffix", "1")] "suffix" "2",
         fun _ => "3.14", []⟩
      = ([Op.query ("CHAN" ++ "2" ++ ":STAT?")],
         Except.ok (parseDecimal ((fun _ => "3.14") ("CHAN" ++ "2" ++ ":STAT?"))))) ∧
    parseDecimal "3.14" = (157 / 50 : ℚ) :=
  ⟨scpi_read_uses_live_attrs_and_coerces ℚ parseDecimal "CHAN" "suffix" ":STAT?"
      "1" "2" (fun _ => "3.14") [] [("instrument", "<RTO6>"), ("suffix", "1")]
      (by decide) (by decide) (by decide) (by decide) rfl,
   by
     show ((3 : Nat) : ℚ) + ((14 : Nat) : ℚ) / (10 : ℚ) ^ 2 = 157 / 50
     norm_num⟩

/-- **C2**: writing a value `V` to a Command Descriptor issues exactly one
call to the instance's `write` primitive, whose argument is the rendered
write template, a single space, and the string form of `V`; `V` is not
validated against `value_type` (the conclusion holds for every value string
`v`, with the typecast never applied). -/
theorem scpi_write_single_write_no_validation (α : Type) (p : SCPIProperty α)
    (pre nm post s v : String) (resp : String → String) (ra : List String)
    (d : List (String × String))
    (hpre : braceFree pre) (hnm : braceFree nm) (hpost : braceFree post)
    (hne : nm ≠ "") :
    (∀ cmd, pyFormat p.set_cmd d = some cmd →
      p.set ⟨d, resp, ra⟩ v = ([Op.write (cmd ++ " " ++ v)], Except.ok ())) ∧
    (p.set_cmd = pre ++ "\x7b" ++ nm ++ "\x7d" ++ post → dictGet d nm = some s →
      p.set ⟨d, resp, ra⟩ v
        = ([Op.write (pre ++ s ++ post ++ " " ++ v)], Except.ok ())) := by
  constructor
  · intro cmd hcmd
    simp [SCPIProperty.set, hcmd]
  · intro hset h1
    have e := pyFormat_subst d pre nm post s hpre hnm hpost hne h1
    simp [SCPIProperty.set, hset, e]

/-- Witness for C2 on the channel-status descriptor of channel 1: setting
the attribute to `"ON"` issues exactly `write("CHAN1:STAT ON")`. -/
theorem scpi_write_single_write_no_validation_witness :
    (SCPIProperty.make "CHAN{suffix}:STAT?" none id).set
        ⟨[("instrument", "<RTO6>"), ("suffix", "1")], fun _ => "RESP", []⟩ "ON"
      = ([Op.write ("CHAN" ++ "1" ++ ":STAT" ++ " " ++ "ON")], Except.ok ()) :=
  (scpi_write_single_write_no_validation String
      (SCPIProperty.make "CHAN{suffix}:STAT?" none id) "CHAN" "suffix" ":STAT"
      "1" "ON" (fun _ => "RESP") [] [("instrument", "<RTO6>"), ("suffix", "1")]
      (by decide) (by decide) (by decide) (by decide)).2 (by decide) rfl

/-- **C3**: a Command Descriptor constructed without an explicit write
template derives it by removing every occurrence of the query marker `?`
from the query template — wherever it appears, not only at the end. -/
theorem derived_write_template_strips_all_query_markers (α : Type)
    (tc : String → α) (g : String) :
    (SCPIProperty.make g none tc).set_cmd
        = String.mk (g.data.filter (fun c => c ≠ '?')) ∧
    (SCPIProperty.make "CHAN{suffix}:STAT?" none tc).set_cmd
        = "CHAN{suffix}:STAT" ∧
    (SCPIProperty.make "A?B?C" none tc).set_cmd = "ABC" := by
  refine ⟨?_, rfl, rfl⟩
  show stripQueryMarker g = _
  unfold stripQueryMarker
  rw [pyReplace_qmark]

/-- **C4** (evaluation at the failing input): on a connected base
Instrument, `setup(identity="x")` completes with no error and issues
`write("*IDN x")` after the `hasattr` probe's query.  The identity
descriptor is not read-only: `SCPIProperty.__init__` turns `set_cmd=None`
into the derived command `"*IDN"`, so `__set__` writes instead of raising —
contradicting the descriptor class's own documentation ("Set to `None` for
read-only properties"). -/
theorem identity_set_issues_write_instead_of_raising :
    instrumentSetup instrumentClass baseObj [("identity", "x")]
      = ([Op.query "*IDN?", Op.write "*IDN x"], baseObj, Except.ok ()) := rfl

/-- **C5 counterexample**: calling `Channel.setup(status="OFF")` does not
override the default — Python raises `TypeError` (duplicate keyword
argument `status` in `super().setup(status='ON', **kwargs)`) and no write
is issued. -/
theorem channel_setup_caller_status_raises_typeerror :
    channelSetup chanObj1 [("status", "OFF")]
      = ([], chanObj1, Except.error PyError.typeError) := rfl

/-- **C5 amended**: the Channel `setup` override applies the default
`status="ON"` before the caller-supplied keys, but a caller-supplied value
for the key `status` raises a `TypeError` (duplicate keyword argument)
instead of overriding the default; for other keys the default precedes the
caller's keys: on channel 1 of a 4-channel instrument,
`channel[0].setup(coupling="DC")` issues exactly two writes in order —
status `ON` for suffix 1, then coupling `DC` for suffix 1. -/
theorem channel_setup_default_before_caller_keys :
    (∀ (o : PyObj) (kwargs : List (String × String)),
        kwargs.any (fun kv => kv.1 == "status") = true →
        channelSetup o kwargs = ([], o, Except.error PyError.typeError)) ∧
    (∀ (o : PyObj) (kwargs : List (String × String)),
        kwargs.any (fun kv => kv.1 == "status") = false →
        channelSetup o kwargs
          = subsystemSetup channelClass o (("status", "ON") :: kwargs)) ∧
    channelSetup chanObj1 [("coupling", "DC")]
      = ([Op.write "CHAN1:STAT ON", Op.write "CHAN1:COUP DC"], chanObj1,
         Except.ok ()) := by
  refine ⟨?_, ?_, rfl⟩
  · intro o kwargs h
    simp [channelSetup, h]
  · intro o kwargs h
    simp [channelSetup, h]

/-- Witness for the amended C5: a `setup` call that also passes `status`
hits the duplicate-keyword `TypeError`. -/
theorem channel_setup_default_before_caller_keys_witness :
    channelSetup chanObj1 [("coupling", "AC"), ("status", "OFF")]
      = ([], chanObj1, Except.error PyError.typeError) :=
  channel_setup_default_before_caller_keys.1 chanObj1
    [("coupling", "AC"), ("status", "OFF")] rfl

/-- **C6**: `Instrument.setup(**kwargs)` sets every keyword that names an
existing attribute by normal attribute assignment (a declared descriptor
key routes through the descriptor's write path), and a keyword that names
no existing attribute raises an `AttributeError` whose message names the
offending key and the concrete class. -/
theorem instrument_setup_valid_and_invalid_keys (cls : InstClass) (o : PyObj)
    (k v : String) (rest : List (String × String)) :
    (∀ ops1, hasattrI cls o k = (ops1, Except.ok false) →
      instrumentSetup cls o ((k, v) :: rest)
        = (ops1, o, Except.error (PyError.attributeError
            (k ++ " is not a valid attribute of " ++ cls.name)))) ∧
    (∀ ops1 ops2 o2, hasattrI cls o k = (ops1, Except.ok true) →
      setattrI cls o k v = (ops2, Except.ok o2) →
      instrumentSetup cls o ((k, v) :: rest)
        = (ops1 ++ ops2 ++ (instrumentSetup cls o2 rest).1,
           (instrumentSetup cls o2 rest).2.1,
           (instrumentSetup cls o2 rest).2.2)) ∧
    (∀ p cmd, findDesc cls k = some p →
      pyFormat p.set_cmd o.attrs = some cmd →
      setattrI cls o k v = ([Op.write (cmd ++ " " ++ v)], Except.ok o)) := by
  refine ⟨?_, ?_, ?_⟩
  · intro ops1 h
    simp [instrumentSetup, h]
  · intro ops1 ops2 o2 h1 h2
    rcases hrest : instrumentSetup cls o2 rest with ⟨ops3, o3, r⟩
    simp [instrumentSetup, h1, h2, hrest]
  · intro p cmd h1 h2
    simp [setattrI, h1, SCPIProperty.set, h2]

/-- Witness for C6: an unknown key on a connected base Instrument fails
with the attribute error naming the key and the class. -/
theorem instrument_setup_valid_and_invalid_keys_witness :
    instrumentSetup instrumentClass baseObj [("bogus", "1")]
      = ([], baseObj, Except.error (PyError.attributeError
          ("bogus" ++ " is not a valid attribute of " ++ "Instrument"))) :=
  (instrument_setup_valid_and_invalid_keys instrumentClass baseObj "bogus" "1"
    []).1 [] rfl

/-- **C7**: `SubSystem.setup` with a key not backed by a declared
descriptor succeeds without error and without any transport operation, and
the key becomes a plain instance attribute readable afterward with the
given value — no existence check is performed. -/
theorem subsystem_setup_undeclared_key_silent (cls : InstClass) (o : PyObj)
    (k v : String) (hk : findDesc cls k = none) :
    subsystemSetup cls o [(k, v)]
      = ([], { o with attrs := dictSet o.attrs k v }, Except.ok ()) ∧
    dictGet (dictSet o.attrs k v) k = some v := by
  constructor
  · simp [subsystemSetup, setattrI, hk]
  · exact dictGet_dictSet_self o.attrs k v

/-- Witness for C7: `channel[0].setup(bogus="42")` succeeds silently and
leaves a readable plain attribute. -/
theorem subsystem_setup_undeclared_key_silent_witness :
    subsystemSetup channelClass chanObj1 [("bogus", "42")]
      = ([], { chanObj1 with attrs := dictSet chanObj1.attrs "bogus" "42" },
         Except.ok ()) ∧
    dictGet (dictSet chanObj1.attrs "bogus" "42") "bogus" = some "42" :=
  subsystem_setup_undeclared_key_silent channelClass chanObj1 "bogus" "42" rfl

/-- **C8**: `Instrument.close()` never raises (the model is total); the
resource close and the resource-manager close are both attempted whatever
the outcomes, and each failure is logged — a failing resource close does
not prevent the resource-manager close attempt. -/
theorem close_best_effort_both_attempted (resClose rmClose : Except PyError Unit) :
    Ev.attemptCloseResource ∈ instrumentClose resClose rmClose ∧
    Ev.attemptCloseRm ∈ instrumentClose resClose rmClose ∧
    (∀ e, resClose = Except.error e →
      Ev.logError "Error closing resource" ∈ instrumentClose resClose rmClose) ∧
    (∀ e, rmClose = Except.error e →
      Ev.logError "Error closing resource manager"
        ∈ instrumentClose resClose rmClose) := by
  cases resClose <;> cases rmClose <;> simp [instrumentClose]

/-- Witness for C8: with a resource whose close raises, the
resource-manager close is still attempted and the failure is logged. -/
theorem close_best_effort_both_attempted_witness :
    Ev.attemptCloseRm
      ∈ instrumentClose (Except.error (PyError.exc "boom")) (Except.ok ()) ∧
    Ev.logError "Error closing resource"
      ∈ instrumentClose (Except.error (PyError.exc "boom")) (Except.ok ()) :=
  ⟨(close_best_effort_both_attempted (Except.error (PyError.exc "boom"))
      (Except.ok ())).2.1,
   (close_best_effort_both_attempted (Except.error (PyError.exc "boom"))
      (Except.ok ())).2.2.1 (PyError.exc "boom") rfl⟩

/-- **C9**: `Instrument.__init__` never propagates a failure to open the
resource manager or the resource: the model of construction is total, the
label is always set, and each open failure leaves the corresponding handle
unbound and an error-level log entry. -/
theorem construction_never_propagates_open_failures (clsName : String)
    (label : Option String) (rmOpen resOpen : Except PyError Unit) :
    (instrumentInit clsName label rmOpen resOpen).label = pyOrStr label clsName ∧
    (∀ e, rmOpen = Except.error e →
      (instrumentInit clsName label rmOpen resOpen).rm = none ∧
      (instrumentInit clsName label rmOpen resOpen).resource = none ∧
      Ev.logError "Failed to open resource manager"
        ∈ (instrumentInit clsName label rmOpen resOpen).logs) ∧
    (∀ e, resOpen = Except.error e →
      (instrumentInit clsName label rmOpen resOpen).resource = none ∧
      Ev.logError "Failed to open resource"
        ∈ (instrumentInit clsName label rmOpen resOpen).logs) := by
  cases rmOpen <;> cases resOpen <;> simp [instrumentInit]

/-- Witness for C9: constructing against a missing VISA backend and a
missing device completes in a degraded state with both failures logged. -/
theorem construction_never_propagates_open_failures_witness :
    (instrumentInit "Instrument" none (Except.error (PyError.exc "no visa"))
        (Except.error (PyError.exc "no dev"))).rm = none ∧
    (instrumentInit "Instrument" none (Except.error (PyError.exc "no visa"))
        (Except.error (PyError.exc "no dev"))).resource = none ∧
    Ev.logError "Failed to open resource manager"
      ∈ (instrumentInit "Instrument" none (Except.error (PyError.exc "no visa"))
          (Except.error (PyError.exc "no dev"))).logs := by
  have h := construction_never_propagates_open_failures "Instrument" none
    (Except.error (PyError.exc "no visa")) (Except.error (PyError.exc "no dev"))
  exact ⟨(h.2.1 _ rfl).1, (h.2.1 _ rfl).2.1, (h.2.1 _ rfl).2.2⟩

/-- **C10**: `Instrument.setup` is not atomic on error — when an invalid
key follows a prefix of valid keys, the final state is the state after the
whole valid prefix was assigned (nothing is undone), the transport trace
contains every operation the prefix issued, and only then is the
`AttributeError` raised. -/
theorem instrument_setup_not_atomic_on_error (cls : InstClass) (o o2 : PyObj)
    (pre rest : List (String × String)) (bad v : String) (ops obs : List Op)
    (hpre : instrumentSetup cls o pre = (ops, o2, Except.ok ()))
    (hbad : hasattrI cls o2 bad = (obs, Except.ok false)) :
    instrumentSetup cls o (pre ++ (bad, v) :: rest)
      = (ops ++ obs, o2, Except.error (PyError.attributeError
          (bad ++ " is not a valid attribute of " ++ cls.name))) := by
  induction pre generalizing o ops with
  | nil =>
      rw [instrumentSetup] at hpre
      injection hpre with ha hb
      injection hb with hb1 hb2
      subst ha
      subst hb1
      simp [instrumentSetup, hbad]
  | cons kv pre' ih =>
      obtain ⟨k, w⟩ := kv
      rw [instrumentSetup] at hpre
      rcases hh : hasattrI cls o k with ⟨ops1, r1⟩
      rw [hh] at hpre
      cases r1 with
      | error e => simp at hpre
      | ok b =>
          cases b with
          | false => simp at hpre
          | true =>
              dsimp only at hpre
              rcases hs : setattrI cls o k w with ⟨ops2, r2⟩
              rw [hs] at hpre
              cases r2 with
              | error e => simp at hpre
              | ok o1 =>
                  dsimp only at hpre
                  rcases hr : instrumentSetup cls o1 pre' with ⟨ops3, o3, r3⟩
                  rw [hr] at hpre
                  dsimp only at hpre
                  injection hpre with h1 h23
                  injection h23 with h2 h3
                  subst h2
                  subst h3
                  have hstep := ih o1 ops3 hr
                  rw [List.cons_append]
                  simp only [instrumentSetup, hh, hs, hstep, ← h1,
                    List.append_assoc]

/-- Witness for C10: `setup(identity="x", bogus="y")` on a connected base
Instrument issues the identity probe query and the identity write before
failing on `bogus`, and the write is not undone. -/
theorem instrument_setup_not_atomic_on_error_witness :
    instrumentSetup instrumentClass baseObj
        [("identity", "x"), ("bogus", "y")]
      = ([Op.query "*IDN?", Op.write "*IDN x"], baseObj,
         Except.error (PyError.attributeError
           ("bogus" ++ " is not a valid attribute of " ++ "Instrument"))) :=
  instrument_setup_not_atomic_on_error instrumentClass baseObj baseObj
    [("identity", "x")] [] "bogus" "y" [Op.query "*IDN?", Op.write "*IDN x"]
    [] rfl rfl

end PySCPI
